import Mathlib

/-
Verification of the simtel event source (ctapipe/io/simteleventsource.py).

The development shallowly embeds the parts of the module that the claims
are about:

* `apply_simtel_r1_calibration` — the pure R1 calibration transform
  (pedestal subtraction, conversion to photoelectron scale, gain-channel
  selection).  Waveform arrays of shape (n_channels, n_pixels, n_samples)
  are embedded as curried functions over `Fin`; samples are rationals
  (the algebra of the numpy float expressions, without rounding).
* the tracking-position → pointing resolution of the per-telescope loop,
* the per-record body of the `__generator` method (header-field writes,
  allow-list filtering, trigger copy, pointing fill), threading the single
  shared `EventAndMonDataContainer` explicitly as state,
* the `_generator` wrapper that turns an `EOFError` of the underlying
  stream into a warning,
* `prepare_subarray_info` with its camera cache, and the seekability check
  of `__init__`.

numpy `NaN` used as the missing-value sentinel for corrected pointing is
embedded as `Option ℚ` with `none` playing the role of NaN; Python
exceptions are embedded as `Except` errors.
-/

namespace SimTel

/-! ## R1 calibration (`apply_simtel_r1_calibration`, lines 66–109) -/

/-- Result of `apply_simtel_r1_calibration`: the calibrated waveform with the
channel axis removed, shape (n_pixels, n_samples), and the per-pixel selected
gain channel (stored as a plain integer, as the numpy `int8`/index array is). -/
structure R1Result (npix nsamp : ℕ) where
  waveform : Fin npix → Fin nsamp → ℚ
  selected_gain_channel : Fin npix → ℕ

/-- The intermediate full-array expression
`r1_waveforms = (r0_waveforms - pedestal[..., newaxis] / n_samples) * dc_to_pe[..., newaxis]`
of lines 100–102: still indexed by channel, pixel and sample. -/
def simtel_r1_all_channels (nch npix nsamp : ℕ)
    (r0_waveforms : Fin nch → Fin npix → Fin nsamp → ℚ)
    (pedestal dc_to_pe : Fin nch → Fin npix → ℚ) :
    Fin nch → Fin npix → Fin nsamp → ℚ :=
  fun c p s => (r0_waveforms c p s - pedestal c p / (nsamp : ℚ)) * dc_to_pe c p

/-- Embedding of `apply_simtel_r1_calibration` (lines 66–109).  The gain
selector is the function argument `gain_selector`, mapping a raw waveform
array to a per-pixel channel index (contract of §4.2: values in
`[0, n_channels)`, hence `Fin nch`).  For `n_channels = 1` the selector is not
consulted, the selected channel is all zero and the channel axis is dropped by
indexing channel 0; otherwise the selector is applied to the *raw* waveforms
and the calibrated array is gathered per pixel at the selected channel. -/
def apply_simtel_r1_calibration (nch npix nsamp : ℕ)
    (r0_waveforms : Fin nch → Fin npix → Fin nsamp → ℚ)
    (pedestal dc_to_pe : Fin nch → Fin npix → ℚ)
    (gain_selector : (Fin nch → Fin npix → Fin nsamp → ℚ) → Fin npix → Fin nch) :
    R1Result npix nsamp :=
  if h : nch = 1 then
    { waveform := fun p s =>
        simtel_r1_all_channels nch npix nsamp r0_waveforms pedestal dc_to_pe ⟨0, by omega⟩ p s
      selected_gain_channel := fun _ => 0 }
  else
    { waveform := fun p s =>
        simtel_r1_all_channels nch npix nsamp r0_waveforms pedestal dc_to_pe
          (gain_selector r0_waveforms p) p s
      selected_gain_channel := fun p => (gain_selector r0_waveforms p).val }

/-- Raw waveforms of the concrete two-channel witness: channel 0 reads 50,
channel 1 reads 5, one pixel, one sample. -/
def witness_r0 : Fin 2 → Fin 1 → Fin 1 → ℚ :=
  fun c _ _ => if c.val = 0 then 50 else 5

/-- A concrete threshold-style selector for the witness: channel 1 if channel 0
exceeds 30, else channel 0. -/
def witness_selector : (Fin 2 → Fin 1 → Fin 1 → ℚ) → Fin 1 → Fin 2 :=
  fun w p => if 30 < w 0 p 0 then 1 else 0

/-! ## Pointing resolution (lines 373–385)

The raw azimuth/altitude fields are always present; the corrected fields are
read with `tracking_position.get("..._cor", np.nan)` and then tested with
`np.isnan`.  A corrected value is therefore used exactly when it is present
and not NaN; `Option ℚ` embeds a float-or-NaN, `none` standing for NaN
(whether stored in the file or substituted for a missing key). -/

/-- The per-telescope tracking sub-record: raw pointing plus the optional
corrected pointing (with `none` embedding numpy NaN / absent field). -/
structure TrackingPosition where
  azimuth_raw : ℚ
  altitude_raw : ℚ
  azimuth_cor : Option ℚ
  altitude_cor : Option ℚ

/-- The pointing container written by the generator (`data.pointing[tel_id]`). -/
structure PointingContainer where
  azimuth : ℚ
  altitude : ℚ

/-- Embedding of lines 378–385: per axis, use the corrected value unless it is
NaN, in which case use the raw value. -/
def fill_pointing (tp : TrackingPosition) : PointingContainer :=
  { azimuth :=
      match tp.azimuth_cor with
      | none => tp.azimuth_raw
      | some cor => cor
    altitude :=
      match tp.altitude_cor with
      | none => tp.altitude_raw
      | some cor => cor }

/-! ## The generator (`_generator` / `__generator`, lines 276–399)

The per-record body of `__generator` is embedded as a state transformer on the
single shared `EventAndMonDataContainer`, keeping exactly the fields the
claims concern; `run_simtel_events` threads that one container through the
record list, mirroring the allocation of `data` before the loop, and collects
the value held by the container at each `yield`. -/

/-- Record type tag (`array_event["type"]`). -/
inductive EventType
  | data
  | calibration
  deriving DecidableEq

/-- A raw per-trigger record, as handed over by the eventio iteration: the
fields of `array_event` used by `__generator`.  `telescope_events` lists the
keys of `array_event["telescope_events"]`; `tracking_positions` maps each
telescope id to its tracking sub-record. -/
structure ArrayEvent where
  type : EventType
  event_id : ℤ
  telescope_events : List ℕ
  triggered_telescopes : Finset ℕ
  gps_seconds : ℤ
  gps_nanoseconds : ℤ
  tracking_positions : ℕ → TrackingPosition

/-- The fields of the shared `EventAndMonDataContainer` that the claims
concern.  `pointing` is a per-telescope map that the source never clears, so
entries persist across records. -/
structure EventContainer where
  event_type : EventType
  count : ℕ
  obs_id : ℤ
  event_id : ℤ
  r0_tels_with_data : Finset ℕ
  r1_tels_with_data : Finset ℕ
  dl0_tels_with_data : Finset ℕ
  trig_tels_with_trigger : Finset ℕ
  gps_seconds : ℤ
  gps_nanoseconds : ℤ
  pointing : ℕ → Option PointingContainer

/-- The freshly allocated container of line 291, before any record is read. -/
def initial_event_container : EventContainer :=
  { event_type := EventType.data
    count := 0
    obs_id := 0
    event_id := 0
    r0_tels_with_data := ∅
    r1_tels_with_data := ∅
    dl0_tels_with_data := ∅
    trig_tels_with_trigger := ∅
    gps_seconds := 0
    gps_nanoseconds := 0
    pointing := fun _ => none }

/-- The work done after the allow-list filter has accepted a record
(lines 334–399, restricted to the claim-relevant fields): copy the trigger
sub-record verbatim, store the GPS time fields, and fill the pointing entry of
every telescope present in this record's telescope events. -/
def finish_array_event (data : EventContainer) (ev : ArrayEvent) : EventContainer :=
  { data with
    trig_tels_with_trigger := ev.triggered_telescopes
    gps_seconds := ev.gps_seconds
    gps_nanoseconds := ev.gps_nanoseconds
    pointing := fun tid =>
      if tid ∈ ev.telescope_events then some (fill_pointing (ev.tracking_positions tid))
      else data.pointing tid }

/-- The header-field writes of lines 299–322, performed on the shared container
before the allow-list filter is consulted: event type, sequence counter, run
id, event id (synthesized as −1 for calibration pseudo-events), and the three
`tels_with_data` sets, all set to the key set of this record's telescope
events. -/
def write_event_headers (obs_id : ℤ) (counter : ℕ) (data : EventContainer)
    (ev : ArrayEvent) : EventContainer :=
  { data with
    event_type := ev.type
    count := counter
    obs_id := obs_id
    event_id := if ev.type = EventType.calibration then -1 else ev.event_id
    r0_tels_with_data := ev.telescope_events.toFinset
    r1_tels_with_data := ev.telescope_events.toFinset
    dl0_tels_with_data := ev.telescope_events.toFinset }

/-- The overwrite of lines 330–332: replace the three `tels_with_data` sets by
the intersection with the allow-list. -/
def write_selected_tels (selected : Finset ℕ) (data : EventContainer) : EventContainer :=
  { data with
    r0_tels_with_data := selected
    r1_tels_with_data := selected
    dl0_tels_with_data := selected }

/-- One iteration of the `for counter, array_event in enumerate(self.file_)`
loop (lines 296–399): write the header fields into the shared container, then
apply the allow-list filter; a skipped record returns `false` (no yield) with
the header fields already overwritten, an accepted record returns `true`
together with the fully assembled container. -/
def process_array_event (allowed_tels : Finset ℕ) (obs_id : ℤ) (counter : ℕ)
    (data : EventContainer) (ev : ArrayEvent) : EventContainer × Bool :=
  if 0 < allowed_tels.card then
    if (ev.telescope_events.toFinset ∩ allowed_tels).card = 0 then
      (write_event_headers obs_id counter data ev, false)
    else
      (finish_array_event
        (write_selected_tels (ev.telescope_events.toFinset ∩ allowed_tels)
          (write_event_headers obs_id counter data ev)) ev, true)
  else (finish_array_event (write_event_headers obs_id counter data ev) ev, true)

/-- The record loop of `__generator`: thread the single shared container
through the record list, collecting the container value at each yield, and
return the final state of the shared container as well. -/
def run_simtel_events (allowed_tels : Finset ℕ) (obs_id : ℤ) :
    EventContainer → ℕ → List ArrayEvent → List EventContainer × EventContainer
  | data, _, [] => ([], data)
  | data, counter, ev :: evs =>
    let step := process_array_event allowed_tels obs_id counter data ev
    let rest := run_simtel_events allowed_tels obs_id step.1 (counter + 1) evs
    (if step.2 then step.1 :: rest.1 else rest.1, rest.2)

/-- How the underlying eventio iteration ends: normally, or by raising
`EOFError` mid-record (a truncated stream). -/
inductive StreamEnding
  | normal
  | truncated
  deriving DecidableEq

/-- The lazy record sequence offered by `SimTelFile`: the complete records it
manages to decode, and how it ends after them. -/
structure SimTelStream where
  records : List ArrayEvent
  ending : StreamEnding

/-- Embedding of `__generator` over a whole stream: the yielded containers,
paired with `Except.error ()` when iteration ends in an `EOFError` escaping
the generator, `Except.ok ()` when it ends normally. -/
def simtel_inner_generator (allowed_tels : Finset ℕ) (obs_id : ℤ) (s : SimTelStream) :
    List EventContainer × Except Unit Unit :=
  let run := run_simtel_events allowed_tels obs_id initial_event_container 0 s.records
  match s.ending with
  | StreamEnding.normal => (run.1, Except.ok ())
  | StreamEnding.truncated => (run.1, Except.error ())

/-- Result of iterating `_generator` to the end: the events that were yielded
and the warnings that were emitted.  There is no error component: `_generator`
catches the `EOFError` of `__generator` (lines 281–288). -/
structure GeneratorRun where
  events : List EventContainer
  truncation_warning : Bool
  backseek_warning : Bool

/-- Embedding of `_generator` (lines 276–288): perform the back-seek warning
check, run `__generator`, and convert an escaping `EOFError` into a truncation
warning instead of propagating it. -/
def simtel_generator (allowed_tels : Finset ℕ) (obs_id : ℤ)
    (tell_pos start_pos : ℕ) (s : SimTelStream) : GeneratorRun :=
  let backseek := start_pos < tell_pos
  let inner := simtel_inner_generator allowed_tels obs_id s
  match inner.2 with
  | Except.ok _ =>
    { events := inner.1, truncation_warning := false, backseek_warning := backseek }
  | Except.error _ =>
    { events := inner.1, truncation_warning := true, backseek_warning := backseek }

/-! ## Instrument model construction (`prepare_subarray_info`, lines 194–266)

The camera construction itself (`build_camera`, lines 31–63) delegates to the
external `CameraGeometry`/`CameraReadout` classes; its result is embedded as a
record that keeps the inputs it was built from, together with an `alloc_id`
tag: every call of `build_camera` in the embedding receives a fresh tag, so
equality of `CameraDescription` values models Python object identity. -/

/-- The `camera_settings` sub-table of a raw telescope description. -/
structure CamSettings where
  n_pixels : ℕ
  focal_length : ℚ
  effective_focal_length : Option ℚ
  mirror_area : ℚ
  n_mirrors : ℕ
  pixel_shape : ℤ
  cam_rot : ℚ
  pixel_x : List ℚ
  pixel_y : List ℚ
  pixel_area : List ℚ
  deriving DecidableEq

/-- The `pixel_settings` sub-table of a raw telescope description. -/
structure PixelSettings where
  time_slice : ℚ
  ref_shape : List ℚ
  ref_step : ℚ
  deriving DecidableEq

/-- One entry of `SimTelFile.telescope_descriptions`. -/
structure TelescopeRaw where
  camera_settings : CamSettings
  pixel_settings : PixelSettings
  deriving DecidableEq

/-- The result of the external `guess_telescope` lookup (ctapipe.instrument.guess):
a canonical telescope model. -/
structure TelescopeGuess where
  name : String
  type : String
  camera_name : String
  n_mirrors : ℕ
  deriving DecidableEq

/-- The sentinel model substituted when `guess_telescope` raises `ValueError`
(modelled as returning `none`). -/
def UNKNOWN_TELESCOPE : TelescopeGuess :=
  { name := "unknown", type := "unknown", camera_name := "unknown", n_mirrors := 1 }

/-- A built camera.  `alloc_id` is the identity tag: two values with the same
`alloc_id` embed the same Python object. -/
structure CameraDescription where
  alloc_id : ℕ
  camera_name : String
  camera_settings : CamSettings
  pixel_settings : PixelSettings
  deriving DecidableEq

/-- Embedding of `build_camera` (lines 31–63): construct a camera named after
the guessed telescope's camera type, from the raw settings, with a fresh
identity tag. -/
def build_camera (alloc_id : ℕ) (cam_settings : CamSettings)
    (pixel_settings : PixelSettings) (telescope : TelescopeGuess) : CameraDescription :=
  { alloc_id := alloc_id
    camera_name := telescope.camera_name
    camera_settings := cam_settings
    pixel_settings := pixel_settings }

/-- The optics record built at lines 244–250. -/
structure OpticsDescription where
  name : String
  num_mirrors : ℕ
  equivalent_focal_length : ℚ
  mirror_area : ℚ
  num_mirror_tiles : ℕ
  deriving DecidableEq

/-- The telescope description built at lines 252–257. -/
structure TelescopeDescription where
  name : String
  tel_type : String
  optics : OpticsDescription
  camera : CameraDescription
  deriving DecidableEq

/-- The header fields used by the builder and the generator: run id and the
per-telescope position table. -/
structure SimTelHeader where
  run : ℤ
  tel_id : List ℕ
  tel_pos : List (ℚ × ℚ × ℚ)
  deriving DecidableEq

/-- The errors of the embedded fragment.  `effective_focal_length_missing`
embeds the `RuntimeError` of lines 228–232 (the spec's ConfigurationError),
`back_seek_not_possible` the `IOError` of line 171 (the spec's
UnsupportedSeek), `tel_position_missing` the `IndexError` a failed position
lookup at line 259 would raise. -/
inductive SimTelError
  | effective_focal_length_missing
  | back_seek_not_possible
  | tel_position_missing
  deriving DecidableEq

/-- The `focal_length_choice` configuration enumeration. -/
inductive FocalLengthChoice
  | nominal
  | effective
  deriving DecidableEq

/-- The immutable instrument model returned by `prepare_subarray_info`. -/
structure SubarrayDescription where
  name : String
  tel_positions : List (ℕ × (ℚ × ℚ × ℚ))
  tel_descriptions : List (ℕ × TelescopeDescription)
  deriving DecidableEq

/-- The builder's mutable state: the `_camera_cache` dict (an association list
inserted at the front, looked up by first match), the supply of identity tags,
and the accumulated description and position tables. -/
structure SubarrayBuildState where
  camera_cache : List (String × CameraDescription)
  next_alloc_id : ℕ
  tel_descriptions : List (ℕ × TelescopeDescription)
  tel_positions : List (ℕ × (ℚ × ℚ × ℚ))
  deriving DecidableEq

/-- `self._camera_cache.get(name)` on the association list. -/
def lookup_camera : List (String × CameraDescription) → String → Option CameraDescription
  | [], _ => none
  | entry :: rest, name => if entry.1 = name then some entry.2 else lookup_camera rest name

/-- Lines 219–232: the focal length is the nominal `focal_length` field, unless
`focal_length_choice = effective`, in which case the `effective_focal_length`
field is read and its absence (the `KeyError`) is turned into the fatal
`RuntimeError`. -/
def resolve_focal_length (choice : FocalLengthChoice) (cam_settings : CamSettings) :
    Except SimTelError ℚ :=
  if choice = FocalLengthChoice.effective then
    match cam_settings.effective_focal_length with
    | none => Except.error SimTelError.effective_focal_length_missing
    | some f => Except.ok f
  else Except.ok cam_settings.focal_length

/-- Lines 239–242: look the camera up in the cache by camera type name; on a
miss, build it with a fresh identity tag and insert it; on a hit, reuse the
cached object unchanged. -/
def resolve_cached_camera (st : SubarrayBuildState) (cam_settings : CamSettings)
    (pixel_settings : PixelSettings) (telescope : TelescopeGuess) :
    CameraDescription × SubarrayBuildState :=
  match lookup_camera st.camera_cache telescope.camera_name with
  | some camera => (camera, st)
  | none =>
    (build_camera st.next_alloc_id cam_settings pixel_settings telescope,
      { st with
        camera_cache := (telescope.camera_name,
          build_camera st.next_alloc_id cam_settings pixel_settings telescope)
            :: st.camera_cache
        next_alloc_id := st.next_alloc_id + 1 })

/-- Lines 259–260: `np.where(header["tel_id"] == tel_id)[0][0]` — the first
index of the telescope id in the header table, then the position at that
index; a missing id is the `IndexError` case. -/
def resolve_tel_position (header : SimTelHeader) (tel_id : ℕ) :
    Except SimTelError (ℚ × ℚ × ℚ) :=
  match header.tel_id.findIdx? (fun t => t == tel_id) with
  | none => Except.error SimTelError.tel_position_missing
  | some tel_idx =>
    match header.tel_pos.get? tel_idx with
    | none => Except.error SimTelError.tel_position_missing
    | some pos => Except.ok pos

/-- The infallible tail of one telescope iteration (lines 239–260): resolve
the camera through the cache, build the optics description (lines 244–250),
append the telescope description referencing the resolved camera
(lines 252–257), and append the telescope position. -/
def subarray_append_telescope (st : SubarrayBuildState) (tel_id : ℕ)
    (cam_settings : CamSettings) (pixel_settings : PixelSettings)
    (telescope : TelescopeGuess) (focal_length : ℚ) (pos : ℚ × ℚ × ℚ) :
    SubarrayBuildState :=
  { (resolve_cached_camera st cam_settings pixel_settings telescope).2 with
    tel_descriptions :=
      (resolve_cached_camera st cam_settings pixel_settings telescope).2.tel_descriptions
        ++ [(tel_id,
              { name := telescope.name
                tel_type := telescope.type
                optics :=
                  { name := telescope.name
                    num_mirrors := telescope.n_mirrors
                    equivalent_focal_length := focal_length
                    mirror_area := cam_settings.mirror_area
                    num_mirror_tiles := cam_settings.n_mirrors }
                camera := (resolve_cached_camera st cam_settings pixel_settings telescope).1 })]
    tel_positions :=
      (resolve_cached_camera st cam_settings pixel_settings telescope).2.tel_positions
        ++ [(tel_id, pos)] }

/-- The body of the `for tel_id, telescope_description in ...` loop of
`prepare_subarray_info` (lines 215–260) for one telescope: resolve the focal
length (fallibly), guess the telescope model (substituting the sentinel on
failure), resolve the position (fallibly), and extend the builder state.  In
the source the position lookup happens after the camera and description are
built; since those are infallible, checking it before the pure state update
yields the same `Except` result. -/
def subarray_build_step (choice : FocalLengthChoice)
    (guess_telescope : ℕ → ℚ → Option TelescopeGuess) (header : SimTelHeader)
    (st : SubarrayBuildState) (entry : ℕ × TelescopeRaw) :
    Except SimTelError SubarrayBuildState :=
  match resolve_focal_length choice entry.2.camera_settings with
  | Except.error e => Except.error e
  | Except.ok focal_length =>
    match resolve_tel_position header entry.1 with
    | Except.error e => Except.error e
    | Except.ok pos =>
      Except.ok (subarray_append_telescope st entry.1 entry.2.camera_settings
        entry.2.pixel_settings
        ((guess_telescope entry.2.camera_settings.n_pixels focal_length).getD
          UNKNOWN_TELESCOPE)
        focal_length pos)

/-- The whole telescope loop of `prepare_subarray_info`, threading the builder
state; the first error aborts the construction. -/
def subarray_build_loop (choice : FocalLengthChoice)
    (guess_telescope : ℕ → ℚ → Option TelescopeGuess) (header : SimTelHeader) :
    SubarrayBuildState → List (ℕ × TelescopeRaw) → Except SimTelError SubarrayBuildState
  | st, [] => Except.ok st
  | st, entry :: rest =>
    match subarray_build_step choice guess_telescope header st entry with
    | Except.error e => Except.error e
    | Except.ok st1 => subarray_build_loop choice guess_telescope header st1 rest

/-- The builder state at `__init__` time: empty cache, no allocations yet. -/
def initial_build_state : SubarrayBuildState :=
  { camera_cache := [], next_alloc_id := 0, tel_descriptions := [], tel_positions := [] }

/-- Embedding of `prepare_subarray_info` (lines 194–266): run the telescope
loop from the empty cache and aggregate the result into the
SubarrayDescription; the second component is the final builder state (the
mutated `_camera_cache` instance attribute). -/
def prepare_subarray_info (choice : FocalLengthChoice)
    (guess_telescope : ℕ → ℚ → Option TelescopeGuess)
    (telescope_descriptions : List (ℕ × TelescopeRaw)) (header : SimTelHeader) :
    Except SimTelError (SubarrayDescription × SubarrayBuildState) :=
  match subarray_build_loop choice guess_telescope header initial_build_state
      telescope_descriptions with
  | Except.error e => Except.error e
  | Except.ok st =>
    Except.ok
      ({ name := "MonteCarloArray"
         tel_positions := st.tel_positions
         tel_descriptions := st.tel_descriptions }, st)

/-! ## Construction of the event source (`__init__`, lines 138–182) -/

/-- What `isinstance(self.file_._filehandle, (BufferedReader, GzipFile))`
inspects: the kind of the underlying file handle, fixed when the file is
opened. -/
inductive FileHandleKind
  | buffered_reader
  | gzip_file
  | other
  deriving DecidableEq

/-- The opened `SimTelFile`: its handle kind, its header and telescope
description tables, its lazy record stream and its initial cursor position. -/
structure SimTelFileHandle where
  handle_kind : FileHandleKind
  telescope_descriptions : List (ℕ × TelescopeRaw)
  header : SimTelHeader
  stream : SimTelStream
  start_pos : ℕ

/-- Embedding of the `is_stream` property (lines 190–192): true exactly when
the underlying handle is neither a `BufferedReader` nor a `GzipFile`. -/
def is_stream (file_ : SimTelFileHandle) : Bool :=
  match file_.handle_kind with
  | FileHandleKind.buffered_reader => false
  | FileHandleKind.gzip_file => false
  | FileHandleKind.other => true

/-- A fully constructed event source. -/
structure SimTelEventSource where
  file_ : SimTelFileHandle
  back_seekable : Bool
  allowed_tels : Finset ℕ
  focal_length_choice : FocalLengthChoice
  subarray : SubarrayDescription
  camera_cache_state : SubarrayBuildState
  start_pos : ℕ

/-- Embedding of `__init__` (lines 138–182) after the `SimTelFile` has been
opened: fail with the `IOError` of line 171 when backward seekability is
required but the handle is a stream, otherwise build the subarray (whose
errors propagate) and record the start position.  All of this happens before
any event is pulled. -/
def simtel_event_source_init (back_seekable : Bool) (choice : FocalLengthChoice)
    (allowed_tels : Finset ℕ) (guess_telescope : ℕ → ℚ → Option TelescopeGuess)
    (file_ : SimTelFileHandle) : Except SimTelError SimTelEventSource :=
  if back_seekable && is_stream file_ then
    Except.error SimTelError.back_seek_not_possible
  else
    match prepare_subarray_info choice guess_telescope file_.telescope_descriptions
        file_.header with
    | Except.error e => Except.error e
    | Except.ok sub =>
      Except.ok
        { file_ := file_
          back_seekable := back_seekable
          allowed_tels := allowed_tels
          focal_length_choice := choice
          subarray := sub.1
          camera_cache_state := sub.2
          start_pos := file_.start_pos }

/-- A concrete record whose telescope-event keys and trigger sub-record are
the set `{1, 3, 5, 7}`. -/
def witness_event_1357 : ArrayEvent :=
  { type := EventType.data
    event_id := 42
    telescope_events := [1, 3, 5, 7]
    triggered_telescopes := {1, 3, 5, 7}
    gps_seconds := 10
    gps_nanoseconds := 20
    tracking_positions := fun _ =>
      { azimuth_raw := 0, altitude_raw := 0, azimuth_cor := none, altitude_cor := none } }

/-- A concrete record for the pointing witness: telescope 3 has corrected
azimuth `1/2`, NaN corrected altitude and raw altitude `1`. -/
def witness_event_pointing : ArrayEvent :=
  { type := EventType.data
    event_id := 5
    telescope_events := [3]
    triggered_telescopes := {3}
    gps_seconds := 0
    gps_nanoseconds := 0
    tracking_positions := fun _ =>
      { azimuth_raw := 0, altitude_raw := 1, azimuth_cor := some (1 / 2),
        altitude_cor := none } }

/-- Well-formedness of the builder state: cache entries are keyed by their
camera's type name, keys are distinct (one entry per camera type name),
identity tags are below the allocation counter and the counter counts exactly
the cache entries (one allocation per distinct name), and every accumulated
telescope description's camera is the cache entry under its name. -/
structure CameraCacheWF (st : SubarrayBuildState) : Prop where
  key_names : ∀ entry ∈ st.camera_cache, entry.2.camera_name = entry.1
  keys_nodup : (st.camera_cache.map Prod.fst).Nodup
  alloc_lt : ∀ entry ∈ st.camera_cache, entry.2.alloc_id < st.next_alloc_id
  alloc_nodup : (st.camera_cache.map (fun entry => entry.2.alloc_id)).Nodup
  alloc_count : st.next_alloc_id = st.camera_cache.length
  descs_lookup : ∀ td ∈ st.tel_descriptions,
    lookup_camera st.camera_cache td.2.camera.camera_name = some td.2.camera

/-- A raw description lacking the effective focal length, for the C5 witness. -/
def witness_raw_no_effective : TelescopeRaw :=
  { camera_settings :=
      { n_pixels := 4, focal_length := 16, effective_focal_length := none,
        mirror_area := 100, n_mirrors := 2, pixel_shape := 1, cam_rot := 0,
        pixel_x := [0, 1, 0, 1], pixel_y := [0, 0, 1, 1], pixel_area := [1, 1, 1, 1] }
    pixel_settings := { time_slice := 2, ref_shape := [0, 1, 0], ref_step := 1 } }

/-- A non-seekable open file (handle neither buffered reader nor gzip). -/
def witness_stream_file : SimTelFileHandle :=
  { handle_kind := FileHandleKind.other
    telescope_descriptions := []
    header := { run := 1, tel_id := [], tel_pos := [] }
    stream := { records := [], ending := StreamEnding.normal }
    start_pos := 0 }

/-- The raw description shared by the two witness telescopes. -/
def witness_raw_shared : TelescopeRaw :=
  { camera_settings :=
      { n_pixels := 4, focal_length := 16, effective_focal_length := some 17,
        mirror_area := 100, n_mirrors := 2, pixel_shape := 1, cam_rot := 0,
        pixel_x := [0, 1, 0, 1], pixel_y := [0, 0, 1, 1], pixel_area := [1, 1, 1, 1] }
    pixel_settings := { time_slice := 2, ref_shape := [0, 1, 0], ref_step := 1 } }

/-- A guess table sending every telescope to the same camera type name. -/
def witness_guess : ℕ → ℚ → Option TelescopeGuess :=
  fun _ _ => some { name := "LST", type := "LST", camera_name := "LSTCam", n_mirrors := 1 }

/-- Header for the two witness telescopes. -/
def witness_header : SimTelHeader :=
  { run := 1, tel_id := [1, 2], tel_pos := [(0, 0, 0), (1, 0, 0)] }

/-- The camera the witness run builds once, with identity tag 0. -/
def witness_camera : CameraDescription :=
  { alloc_id := 0
    camera_name := "LSTCam"
    camera_settings := witness_raw_shared.camera_settings
    pixel_settings := witness_raw_shared.pixel_settings }

/-- The telescope description both witness telescopes receive: it references
`witness_camera` itself. -/
def witness_tel_description : TelescopeDescription :=
  { name := "LST"
    tel_type := "LST"
    optics :=
      { name := "LST", num_mirrors := 1, equivalent_focal_length := 16,
        mirror_area := 100, num_mirror_tiles := 2 }
    camera := witness_camera }

/-- The subarray the witness run constructs. -/
def witness_subarray : SubarrayDescription :=
  { name := "MonteCarloArray"
    tel_positions := [(1, (0, 0, 0)), (2, (1, 0, 0))]
    tel_descriptions := [(1, witness_tel_description), (2, witness_tel_description)] }

/-- The final builder state of the witness run: one cache entry, one
allocation. -/
def witness_final_state : SubarrayBuildState :=
  { camera_cache := [("LSTCam", witness_camera)]
    next_alloc_id := 1
    tel_descriptions := [(1, witness_tel_description), (2, witness_tel_description)]
    tel_positions := [(1, (0, 0, 0)), (2, (1, 0, 0))] }

/-- Unfolding of `apply_simtel_r1_calibration` in the single-channel branch. -/
theorem apply_simtel_r1_calibration_one (npix nsamp : ℕ)
    (r0_waveforms : Fin 1 → Fin npix → Fin nsamp → ℚ)
    (pedestal dc_to_pe : Fin 1 → Fin npix → ℚ)
    (gain_selector : (Fin 1 → Fin npix → Fin nsamp → ℚ) → Fin npix → Fin 1) :
    apply_simtel_r1_calibration 1 npix nsamp r0_waveforms pedestal dc_to_pe gain_selector
      = { waveform := fun p s =>
            simtel_r1_all_channels 1 npix nsamp r0_waveforms pedestal dc_to_pe 0 p s
          selected_gain_channel := fun _ => 0 } :=
  rfl

/-- Unfolding of `apply_simtel_r1_calibration` in the multi-channel branch. -/
theorem apply_simtel_r1_calibration_multi (nch npix nsamp : ℕ)
    (r0_waveforms : Fin nch → Fin npix → Fin nsamp → ℚ)
    (pedestal dc_to_pe : Fin nch → Fin npix → ℚ)
    (gain_selector : (Fin nch → Fin npix → Fin nsamp → ℚ) → Fin npix → Fin nch)
    (h : ¬ nch = 1) :
    apply_simtel_r1_calibration nch npix nsamp r0_waveforms pedestal dc_to_pe gain_selector
      = { waveform := fun p s =>
            simtel_r1_all_channels nch npix nsamp r0_waveforms pedestal dc_to_pe
              (gain_selector r0_waveforms p) p s
          selected_gain_channel := fun p => (gain_selector r0_waveforms p).val } := by
  unfold apply_simtel_r1_calibration
  rw [dif_neg h]

/-- C1: the calibrated output of `apply_simtel_r1_calibration` is, element-wise
for each channel, pixel and sample, `(raw_sample − pedestal/n_samples) * dc_to_pe`:
the pedestal is normalized by the sample count, subtracted from the raw sample,
and the result is scaled by the conversion factor broadcast over the sample
axis.  The first conjunct states this for the full per-channel intermediate
array; the second states that every output sample of the returned waveform is
exactly this value at the channel recorded in `selected_gain_channel`. -/
theorem apply_simtel_r1_calibration_formula (nch npix nsamp : ℕ)
    (r0_waveforms : Fin nch → Fin npix → Fin nsamp → ℚ)
    (pedestal dc_to_pe : Fin nch → Fin npix → ℚ)
    (gain_selector : (Fin nch → Fin npix → Fin nsamp → ℚ) → Fin npix → Fin nch) :
    (∀ c p s, simtel_r1_all_channels nch npix nsamp r0_waveforms pedestal dc_to_pe c p s
        = (r0_waveforms c p s - pedestal c p / (nsamp : ℚ)) * dc_to_pe c p)
    ∧ (∀ p s, ∃ c : Fin nch,
        c.val = (apply_simtel_r1_calibration nch npix nsamp r0_waveforms pedestal dc_to_pe
            gain_selector).selected_gain_channel p
        ∧ (apply_simtel_r1_calibration nch npix nsamp r0_waveforms pedestal dc_to_pe
            gain_selector).waveform p s
          = (r0_waveforms c p s - pedestal c p / (nsamp : ℚ)) * dc_to_pe c p) := by
  refine ⟨fun c p s => rfl, fun p s => ?_⟩
  by_cases h : nch = 1
  · subst h
    exact ⟨0, rfl, rfl⟩
  · rw [apply_simtel_r1_calibration_multi nch npix nsamp r0_waveforms pedestal dc_to_pe
      gain_selector h]
    exact ⟨gain_selector r0_waveforms p, rfl, rfl⟩

/-- C2: single- versus multi-channel behaviour of `apply_simtel_r1_calibration`.
If `n_channels = 1` the returned `selected_gain_channel` is all zero, the gain
selector is never consulted (the result is the same for every selector), and
with zero pedestal and unit conversion factor the returned waveform equals the
raw input exactly (the channel axis being dropped).  If `n_channels > 1` the
selector is applied to the raw pre-pedestal waveforms, the returned
`selected_gain_channel` records its per-pixel choice, and each pixel's output
sample vector is gathered from exactly that channel of the calibrated array. -/
theorem apply_simtel_r1_calibration_channel_cases (nch npix nsamp : ℕ)
    (r0_waveforms : Fin nch → Fin npix → Fin nsamp → ℚ)
    (pedestal dc_to_pe : Fin nch → Fin npix → ℚ)
    (gain_selector : (Fin nch → Fin npix → Fin nsamp → ℚ) → Fin npix → Fin nch) :
    (nch = 1 →
      (∀ p, (apply_simtel_r1_calibration nch npix nsamp r0_waveforms pedestal dc_to_pe
          gain_selector).selected_gain_channel p = 0)
      ∧ (∀ gs2, apply_simtel_r1_calibration nch npix nsamp r0_waveforms pedestal dc_to_pe gs2
          = apply_simtel_r1_calibration nch npix nsamp r0_waveforms pedestal dc_to_pe
              gain_selector)
      ∧ ((∀ c p, pedestal c p = 0) → (∀ c p, dc_to_pe c p = 1) →
          ∀ (c : Fin nch) (p : Fin npix) (s : Fin nsamp),
            (apply_simtel_r1_calibration nch npix nsamp r0_waveforms pedestal dc_to_pe
                gain_selector).waveform p s = r0_waveforms c p s))
    ∧ (1 < nch →
        ∀ p, (apply_simtel_r1_calibration nch npix nsamp r0_waveforms pedestal dc_to_pe
            gain_selector).selected_gain_channel p = (gain_selector r0_waveforms p).val
          ∧ ∀ s, (apply_simtel_r1_calibration nch npix nsamp r0_waveforms pedestal dc_to_pe
              gain_selector).waveform p s
            = simtel_r1_all_channels nch npix nsamp r0_waveforms pedestal dc_to_pe
                (gain_selector r0_waveforms p) p s) := by
  constructor
  · intro h
    subst h
    refine ⟨fun p => rfl, fun gs2 => rfl, ?_⟩
    intro hped hgain c p s
    have hc : c = 0 := Fin.eq_zero c
    subst hc
    show simtel_r1_all_channels 1 npix nsamp r0_waveforms pedestal dc_to_pe 0 p s
      = r0_waveforms 0 p s
    unfold simtel_r1_all_channels
    rw [hped 0 p, hgain 0 p, zero_div, sub_zero, mul_one]
  · intro h
    have h1 : ¬ nch = 1 := by omega
    intro p
    rw [apply_simtel_r1_calibration_multi nch npix nsamp r0_waveforms pedestal dc_to_pe
      gain_selector h1]
    exact ⟨rfl, fun s => rfl⟩

/-- Witness for `apply_simtel_r1_calibration_channel_cases`: a concrete
single-channel input with zero pedestal and unit gain returns the raw value 7
with selected channel 0, and a concrete two-channel input with raw peaks 50/5,
pedestal 2 and gain 3 selects channel 1 and returns `(5 - 2) * 3`. -/
theorem apply_simtel_r1_calibration_channel_cases_witness :
    ((apply_simtel_r1_calibration 1 1 1 (fun _ _ _ => 7) (fun _ _ => 0) (fun _ _ => 1)
        (fun _ _ => 0)).waveform 0 0 = 7
      ∧ (apply_simtel_r1_calibration 1 1 1 (fun _ _ _ => 7) (fun _ _ => 0) (fun _ _ => 1)
        (fun _ _ => 0)).selected_gain_channel 0 = 0)
    ∧ ((apply_simtel_r1_calibration 2 1 1 witness_r0 (fun _ _ => 2) (fun _ _ => 3)
        witness_selector).selected_gain_channel 0 = 1
      ∧ (apply_simtel_r1_calibration 2 1 1 witness_r0 (fun _ _ => 2) (fun _ _ => 3)
        witness_selector).waveform 0 0 = (5 - 2) * 3) := by
  constructor
  · have h := (apply_simtel_r1_calibration_channel_cases 1 1 1 (fun _ _ _ => 7)
      (fun _ _ => 0) (fun _ _ => 1) (fun _ _ => 0)).1 rfl
    exact ⟨h.2.2 (fun _ _ => rfl) (fun _ _ => rfl) 0 0 0, h.1 0⟩
  · have h := (apply_simtel_r1_calibration_channel_cases 2 1 1 witness_r0
      (fun _ _ => 2) (fun _ _ => 3) witness_selector).2 (by omega) 0
    refine ⟨?_, ?_⟩
    · rw [h.1]
      decide
    · rw [h.2 0]
      show (witness_r0 (witness_selector witness_r0 0) 0 0 - 2 / (1 : ℚ)) * 3 = (5 - 2) * 3
      norm_num [witness_r0, witness_selector]

/-! ## Lemmas about the record loop -/

/-- The fields of an accepted record's container: the three `tels_with_data`
sets coincide, and under a non-empty allow-list they are the (non-empty)
intersection with the allow-list. -/
theorem process_array_event_true_fields (allowed_tels : Finset ℕ) (obs_id : ℤ)
    (counter : ℕ) (data : EventContainer) (ev : ArrayEvent)
    (h : (process_array_event allowed_tels obs_id counter data ev).2 = true) :
    ((process_array_event allowed_tels obs_id counter data ev).1.r0_tels_with_data
        = (process_array_event allowed_tels obs_id counter data ev).1.r1_tels_with_data
      ∧ (process_array_event allowed_tels obs_id counter data ev).1.r1_tels_with_data
        = (process_array_event allowed_tels obs_id counter data ev).1.dl0_tels_with_data)
    ∧ (0 < allowed_tels.card →
        (process_array_event allowed_tels obs_id counter data ev).1.r0_tels_with_data
          = ev.telescope_events.toFinset ∩ allowed_tels
        ∧ (process_array_event allowed_tels obs_id counter data ev).1.r0_tels_with_data
            ⊆ allowed_tels
        ∧ (process_array_event allowed_tels obs_id counter data ev).1.r0_tels_with_data.Nonempty) := by
  unfold process_array_event at h ⊢
  by_cases hcard : 0 < allowed_tels.card
  · rw [if_pos hcard] at h ⊢
    by_cases hsel : (ev.telescope_events.toFinset ∩ allowed_tels).card = 0
    · rw [if_pos hsel] at h
      exact absurd h (by simp)
    · rw [if_neg hsel] at h ⊢
      refine ⟨⟨rfl, rfl⟩, fun _ => ⟨rfl, fun x hx => (Finset.mem_inter.mp hx).2, ?_⟩⟩
      exact Finset.card_pos.mp (Nat.pos_of_ne_zero hsel)
  · rw [if_neg hcard] at h ⊢
    exact ⟨⟨rfl, rfl⟩, fun hc => absurd hc hcard⟩

/-- Every container collected at a yield of the record loop has its three
`tels_with_data` sets equal, and under a non-empty allow-list they are a
non-empty subset of the allow-list. -/
theorem run_simtel_events_yield_invariant (allowed_tels : Finset ℕ) (obs_id : ℤ)
    (records : List ArrayEvent) :
    ∀ (data : EventContainer) (counter : ℕ),
      ∀ e ∈ (run_simtel_events allowed_tels obs_id data counter records).1,
        (e.r0_tels_with_data = e.r1_tels_with_data
          ∧ e.r1_tels_with_data = e.dl0_tels_with_data)
        ∧ (0 < allowed_tels.card →
            e.r0_tels_with_data ⊆ allowed_tels ∧ e.r0_tels_with_data.Nonempty) := by
  induction records with
  | nil =>
    intro data counter e he
    simp [run_simtel_events] at he
  | cons ev evs ih =>
    intro data counter e he
    simp only [run_simtel_events] at he
    by_cases hy : (process_array_event allowed_tels obs_id counter data ev).2 = true
    · rw [if_pos hy] at he
      rcases List.mem_cons.mp he with he | he
      · subst he
        have hf := process_array_event_true_fields allowed_tels obs_id counter data ev hy
        exact ⟨hf.1, fun hc => ⟨(hf.2 hc).2.1, (hf.2 hc).2.2⟩⟩
      · exact ih _ _ e he
    · rw [if_neg hy] at he
      exact ih _ _ e he

/-- With no allow-list configured, every record yields, so the number of
yielded containers equals the number of complete records. -/
theorem run_simtel_events_length_no_filter (allowed_tels : Finset ℕ) (obs_id : ℤ)
    (records : List ArrayEvent) (hcard : allowed_tels.card = 0) :
    ∀ (data : EventContainer) (counter : ℕ),
      (run_simtel_events allowed_tels obs_id data counter records).1.length
        = records.length := by
  induction records with
  | nil => intro data counter; rfl
  | cons ev evs ih =>
    intro data counter
    have hy : (process_array_event allowed_tels obs_id counter data ev).2 = true := by
      unfold process_array_event
      rw [if_neg (by omega)]
    simp only [run_simtel_events]
    rw [if_pos hy]
    simp [ih]

/-! ## Claim theorems about the generator -/

/-- C3: within every yielded event the `tels_with_data` sets of the R0, R1 and
DL0 sub-views are equal; with a non-empty allow-list configured every yielded
event's set is a non-empty subset of the allow-list (never a superset), an
accepted record's set is exactly the intersection of its telescope-event key
set with the allow-list, and a record with empty intersection yields nothing
while the loop continues with the next record from the overwritten shared
container and an advanced counter. -/
theorem tels_with_data_invariant (allowed_tels : Finset ℕ) (obs_id : ℤ) :
    (∀ (records : List ArrayEvent) (data : EventContainer) (counter : ℕ),
      ∀ e ∈ (run_simtel_events allowed_tels obs_id data counter records).1,
        (e.r0_tels_with_data = e.r1_tels_with_data
          ∧ e.r1_tels_with_data = e.dl0_tels_with_data)
        ∧ (0 < allowed_tels.card →
            e.r0_tels_with_data ⊆ allowed_tels ∧ e.r0_tels_with_data.Nonempty))
    ∧ (∀ (data : EventContainer) (counter : ℕ) (ev : ArrayEvent),
        0 < allowed_tels.card →
        (¬ (ev.telescope_events.toFinset ∩ allowed_tels).card = 0 →
          (process_array_event allowed_tels obs_id counter data ev).2 = true
          ∧ (process_array_event allowed_tels obs_id counter data ev).1.r0_tels_with_data
              = ev.telescope_events.toFinset ∩ allowed_tels)
        ∧ ((ev.telescope_events.toFinset ∩ allowed_tels).card = 0 →
          (process_array_event allowed_tels obs_id counter data ev).2 = false
          ∧ ∀ (rest : List ArrayEvent),
            run_simtel_events allowed_tels obs_id data counter (ev :: rest)
              = run_simtel_events allowed_tels obs_id
                  (process_array_event allowed_tels obs_id counter data ev).1
                  (counter + 1) rest)) := by
  refine ⟨run_simtel_events_yield_invariant allowed_tels obs_id, ?_⟩
  intro data counter ev hcard
  constructor
  · intro hsel
    have hy : (process_array_event allowed_tels obs_id counter data ev).2 = true := by
      unfold process_array_event
      rw [if_pos hcard, if_neg hsel]
    exact ⟨hy, ((process_array_event_true_fields allowed_tels obs_id counter data ev hy).2
      hcard).1⟩
  · intro hsel
    have hn : (process_array_event allowed_tels obs_id counter data ev).2 = false := by
      unfold process_array_event
      rw [if_pos hcard, if_pos hsel]
    refine ⟨hn, fun rest => ?_⟩
    simp only [run_simtel_events]
    rw [if_neg (by rw [hn]; exact Bool.false_ne_true)]

/-- Witness for `tels_with_data_invariant`: allow-list `{3, 5}` against
telescope events `{1, 3, 5, 7}` yields an event with `tels_with_data = {3, 5}`;
allow-list `{9}` against the same record yields no event. -/
theorem tels_with_data_invariant_witness :
    ((process_array_event {3, 5} 1 0 initial_event_container witness_event_1357).2 = true
      ∧ (process_array_event {3, 5} 1 0 initial_event_container
          witness_event_1357).1.r0_tels_with_data = ({3, 5} : Finset ℕ))
    ∧ (process_array_event {9} 1 0 initial_event_container witness_event_1357).2 = false := by
  have h35 := (tels_with_data_invariant {3, 5} 1).2 initial_event_container 0
    witness_event_1357 (by decide)
  have h9 := (tels_with_data_invariant {9} 1).2 initial_event_container 0
    witness_event_1357 (by decide)
  exact ⟨⟨(h35.1 (by decide)).1, ((h35.1 (by decide)).2).trans (by decide)⟩,
    (h9.2 (by decide)).1⟩

/-- C4: on a stream that ends abruptly mid-record after its complete records,
`_generator` yields exactly the events assembled from the complete records
(the same events an intact stream of those records yields), the `EOFError` of
the inner generator is caught and converted into a truncation warning, never
propagating further, and with no allow-list the number of yielded events
equals the number of complete records. -/
theorem truncated_stream_ends_gracefully (allowed_tels : Finset ℕ) (obs_id : ℤ)
    (tell_pos start_pos : ℕ) (s : SimTelStream)
    (h : s.ending = StreamEnding.truncated) :
    (simtel_generator allowed_tels obs_id tell_pos start_pos s).events
        = (simtel_generator allowed_tels obs_id tell_pos start_pos
            { records := s.records, ending := StreamEnding.normal }).events
    ∧ (simtel_inner_generator allowed_tels obs_id s).2 = Except.error ()
    ∧ (simtel_generator allowed_tels obs_id tell_pos start_pos s).truncation_warning = true
    ∧ (allowed_tels.card = 0 →
        (simtel_generator allowed_tels obs_id tell_pos start_pos s).events.length
          = s.records.length) := by
  obtain ⟨records, ending⟩ := s
  cases ending with
  | normal => exact absurd h (by simp)
  | truncated =>
    refine ⟨rfl, rfl, rfl, fun hcard => ?_⟩
    exact run_simtel_events_length_no_filter allowed_tels obs_id records hcard
      initial_event_container 0

/-- Witness for `truncated_stream_ends_gracefully`: a stream truncated after 3
complete records yields exactly 3 events, with the truncation warning set. -/
theorem truncated_stream_ends_gracefully_witness :
    (simtel_generator ∅ 7 0 0
        { records := [witness_event_1357, witness_event_1357, witness_event_1357]
          ending := StreamEnding.truncated }).events.length = 3
    ∧ (simtel_generator ∅ 7 0 0
        { records := [witness_event_1357, witness_event_1357, witness_event_1357]
          ending := StreamEnding.truncated }).truncation_warning = true := by
  have h := truncated_stream_ends_gracefully ∅ 7 0 0
    { records := [witness_event_1357, witness_event_1357, witness_event_1357]
      ending := StreamEnding.truncated } rfl
  exact ⟨(h.2.2.2 rfl).trans rfl, h.2.2.1⟩

/-- C7: the pointing written for every telescope of every accepted record is
resolved per axis independently — the azimuth is the corrected azimuth unless
that is NaN (embedded as `none`), in which case it is the raw azimuth, and
likewise for the altitude. -/
theorem pointing_per_axis_fallback :
    (∀ tp : TrackingPosition,
      (fill_pointing tp).azimuth = tp.azimuth_cor.getD tp.azimuth_raw
      ∧ (fill_pointing tp).altitude = tp.altitude_cor.getD tp.altitude_raw)
    ∧ (∀ (allowed_tels : Finset ℕ) (obs_id : ℤ) (counter : ℕ) (data : EventContainer)
        (ev : ArrayEvent),
        (process_array_event allowed_tels obs_id counter data ev).2 = true →
        ∀ tid ∈ ev.telescope_events,
          (process_array_event allowed_tels obs_id counter data ev).1.pointing tid
            = some (fill_pointing (ev.tracking_positions tid))) := by
  constructor
  · intro tp
    constructor
    · rcases haz : tp.azimuth_cor with _ | cor <;> simp [fill_pointing, haz]
    · rcases halt : tp.altitude_cor with _ | cor <;> simp [fill_pointing, halt]
  · intro allowed_tels obs_id counter data ev h tid htid
    unfold process_array_event at h ⊢
    by_cases hcard : 0 < allowed_tels.card
    · rw [if_pos hcard] at h ⊢
      by_cases hsel : (ev.telescope_events.toFinset ∩ allowed_tels).card = 0
      · rw [if_pos hsel] at h
        exact absurd h (by simp)
      · rw [if_neg hsel]
        show (if tid ∈ ev.telescope_events
          then some (fill_pointing (ev.tracking_positions tid))
          else (write_selected_tels _ (write_event_headers obs_id counter data ev)).pointing tid)
          = some (fill_pointing (ev.tracking_positions tid))
        rw [if_pos htid]
    · rw [if_neg hcard]
      show (if tid ∈ ev.telescope_events
        then some (fill_pointing (ev.tracking_positions tid))
        else (write_event_headers obs_id counter data ev).pointing tid)
        = some (fill_pointing (ev.tracking_positions tid))
      rw [if_pos htid]

/-- Witness for `pointing_per_axis_fallback`: NaN corrected altitude with raw
altitude 1 gives output 1; corrected altitude `6/5` (1.2) gives output `6/5`
regardless of the raw value; and the generator writes exactly the resolved
pointing, here azimuth `1/2` and altitude `1` for telescope 3. -/
theorem pointing_per_axis_fallback_witness :
    (fill_pointing
        { azimuth_raw := 0, altitude_raw := 1, azimuth_cor := none,
          altitude_cor := none }).altitude = 1
    ∧ (fill_pointing
        { azimuth_raw := 0, altitude_raw := 1, azimuth_cor := none,
          altitude_cor := some (6 / 5) }).altitude = 6 / 5
    ∧ (process_array_event ∅ 1 0 initial_event_container witness_event_pointing).1.pointing 3
        = some { azimuth := 1 / 2, altitude := 1 } := by
  refine ⟨(pointing_per_axis_fallback.1 _).2.trans rfl,
    (pointing_per_axis_fallback.1 _).2.trans rfl, ?_⟩
  have h := pointing_per_axis_fallback.2 ∅ 1 0 initial_event_container
    witness_event_pointing (by decide) 3 (by decide)
  exact h.trans rfl

/-- C9: the `trig.tels_with_trigger` field of every yielded event is copied
verbatim from the record's trigger sub-record, never intersected with the
allow-list; in the concrete filtered record below it is a strict superset of
the event's `tels_with_data`. -/
theorem tels_with_trigger_verbatim :
    (∀ (allowed_tels : Finset ℕ) (obs_id : ℤ) (counter : ℕ) (data : EventContainer)
      (ev : ArrayEvent),
      (process_array_event allowed_tels obs_id counter data ev).2 = true →
        (process_array_event allowed_tels obs_id counter data ev).1.trig_tels_with_trigger
          = ev.triggered_telescopes)
    ∧ (process_array_event {3, 5} 1 0 initial_event_container
          witness_event_1357).1.r0_tels_with_data
        ⊂ (process_array_event {3, 5} 1 0 initial_event_container
          witness_event_1357).1.trig_tels_with_trigger := by
  constructor
  · intro allowed_tels obs_id counter data ev h
    unfold process_array_event at h ⊢
    by_cases hcard : 0 < allowed_tels.card
    · rw [if_pos hcard] at h ⊢
      by_cases hsel : (ev.telescope_events.toFinset ∩ allowed_tels).card = 0
      · rw [if_pos hsel] at h
        exact absurd h (by simp)
      · rw [if_neg hsel]
        rfl
    · rw [if_neg hcard]
      rfl
  · decide

/-- Witness for `tels_with_trigger_verbatim`: the filtered record is accepted
and its trigger set `{1, 3, 5, 7}` is stored unfiltered. -/
theorem tels_with_trigger_verbatim_witness :
    (process_array_event {3, 5} 1 0 initial_event_container witness_event_1357).2 = true
    ∧ (process_array_event {3, 5} 1 0 initial_event_container
        witness_event_1357).1.trig_tels_with_trigger
      = witness_event_1357.triggered_telescopes :=
  ⟨by decide, tels_with_trigger_verbatim.1 {3, 5} 1 0 initial_event_container
    witness_event_1357 (by decide)⟩

/-- C10: the record loop threads one shared container (allocated once before
the loop) through every iteration, and the header fields are written into it
before the allow-list filter: a record whose telescope-event keys have empty
intersection with a configured allow-list produces no yield, yet its event
type, sequence counter, run id, event id and `tels_with_data` key set are
already overwritten in the shared container — and hence visible through the
most recently yielded event, which aliases that container — while the trigger
set and the pointing map keep their previous values, and iteration continues
on the rest of the records from the overwritten container. -/
theorem skipped_record_overwrites_shared_container (allowed_tels : Finset ℕ)
    (obs_id : ℤ) (counter : ℕ) (data : EventContainer) (ev : ArrayEvent)
    (hfilter : 0 < allowed_tels.card)
    (hskip : (ev.telescope_events.toFinset ∩ allowed_tels).card = 0) :
    (process_array_event allowed_tels obs_id counter data ev).2 = false
    ∧ (process_array_event allowed_tels obs_id counter data ev).1.event_type = ev.type
    ∧ (process_array_event allowed_tels obs_id counter data ev).1.count = counter
    ∧ (process_array_event allowed_tels obs_id counter data ev).1.obs_id = obs_id
    ∧ (process_array_event allowed_tels obs_id counter data ev).1.event_id
        = (if ev.type = EventType.calibration then -1 else ev.event_id)
    ∧ (process_array_event allowed_tels obs_id counter data ev).1.r0_tels_with_data
        = ev.telescope_events.toFinset
    ∧ (process_array_event allowed_tels obs_id counter data ev).1.r1_tels_with_data
        = ev.telescope_events.toFinset
    ∧ (process_array_event allowed_tels obs_id counter data ev).1.dl0_tels_with_data
        = ev.telescope_events.toFinset
    ∧ (process_array_event allowed_tels obs_id counter data ev).1.trig_tels_with_trigger
        = data.trig_tels_with_trigger
    ∧ (process_array_event allowed_tels obs_id counter data ev).1.pointing = data.pointing
    ∧ ∀ (rest : List ArrayEvent),
        run_simtel_events allowed_tels obs_id data counter (ev :: rest)
          = run_simtel_events allowed_tels obs_id
              (process_array_event allowed_tels obs_id counter data ev).1
              (counter + 1) rest := by
  have hstep : process_array_event allowed_tels obs_id counter data ev
      = (write_event_headers obs_id counter data ev, false) := by
    unfold process_array_event
    rw [if_pos hfilter, if_pos hskip]
  rw [hstep]
  refine ⟨rfl, rfl, rfl, rfl, rfl, rfl, rfl, rfl, rfl, rfl, fun rest => ?_⟩
  simp only [run_simtel_events, hstep]
  simp

/-- Witness for `skipped_record_overwrites_shared_container`: allow-list `{9}`
against telescope events `{1, 3, 5, 7}` skips the record yet overwrites the
shared container's event id and `tels_with_data`. -/
theorem skipped_record_overwrites_shared_container_witness :
    (process_array_event {9} 1 0 initial_event_container witness_event_1357).2 = false
    ∧ (process_array_event {9} 1 0 initial_event_container
        witness_event_1357).1.event_id = 42
    ∧ (process_array_event {9} 1 0 initial_event_container
        witness_event_1357).1.r0_tels_with_data
      = witness_event_1357.telescope_events.toFinset := by
  have h := skipped_record_overwrites_shared_container {9} 1 0 initial_event_container
    witness_event_1357 (by decide) (by decide)
  exact ⟨h.1, h.2.2.2.2.1.trans (by decide), h.2.2.2.2.2.1⟩

/-! ## Lemmas about the camera cache and the builder -/

/-- A successful cache lookup returns an entry of the cache. -/
theorem lookup_camera_mem :
    ∀ (cache : List (String × CameraDescription)) (name : String) (cam : CameraDescription),
      lookup_camera cache name = some cam → (name, cam) ∈ cache := by
  intro cache
  induction cache with
  | nil => intro name cam h; simp [lookup_camera] at h
  | cons entry rest ih =>
    intro name cam h
    simp only [lookup_camera] at h
    split at h
    · rename_i he
      obtain ⟨e1, e2⟩ := entry
      cases h
      simp only at he
      subst he
      exact List.mem_cons_self _ _
    · exact List.mem_cons_of_mem _ (ih name cam h)

/-- A failed cache lookup means the name is absent from the cache keys. -/
theorem lookup_camera_none_not_mem :
    ∀ (cache : List (String × CameraDescription)) (name : String),
      lookup_camera cache name = none → name ∉ cache.map Prod.fst := by
  intro cache
  induction cache with
  | nil => intro name _ h; simp at h
  | cons entry rest ih =>
    intro name h hmem
    simp only [lookup_camera] at h
    split at h
    · cases h
    · rename_i he
      rcases List.mem_cons.mp hmem with hh | hh
      · exact he hh.symm
      · exact ih name h hh

/-- Properties of one cache resolution: the returned camera carries the
requested name and is the cache entry under that name afterwards, previous
entries survive unchanged, well-formedness of the cache is preserved, and the
description/position tables are untouched. -/
theorem resolve_cached_camera_spec (st : SubarrayBuildState) (cs : CamSettings)
    (ps : PixelSettings) (telescope : TelescopeGuess) (hwf : CameraCacheWF st) :
    (resolve_cached_camera st cs ps telescope).1.camera_name = telescope.camera_name
    ∧ lookup_camera (resolve_cached_camera st cs ps telescope).2.camera_cache
        telescope.camera_name = some (resolve_cached_camera st cs ps telescope).1
    ∧ (∀ name cam, lookup_camera st.camera_cache name = some cam →
        lookup_camera (resolve_cached_camera st cs ps telescope).2.camera_cache name
          = some cam)
    ∧ (∀ entry ∈ (resolve_cached_camera st cs ps telescope).2.camera_cache,
        entry.2.camera_name = entry.1)
    ∧ ((resolve_cached_camera st cs ps telescope).2.camera_cache.map Prod.fst).Nodup
    ∧ (∀ entry ∈ (resolve_cached_camera st cs ps telescope).2.camera_cache,
        entry.2.alloc_id < (resolve_cached_camera st cs ps telescope).2.next_alloc_id)
    ∧ ((resolve_cached_camera st cs ps telescope).2.camera_cache.map
        (fun entry => entry.2.alloc_id)).Nodup
    ∧ (resolve_cached_camera st cs ps telescope).2.next_alloc_id
        = (resolve_cached_camera st cs ps telescope).2.camera_cache.length
    ∧ (resolve_cached_camera st cs ps telescope).2.tel_descriptions = st.tel_descriptions
    ∧ (resolve_cached_camera st cs ps telescope).2.tel_positions = st.tel_positions := by
  rcases hl : lookup_camera st.camera_cache telescope.camera_name with _ | cam0
  · have hres : resolve_cached_camera st cs ps telescope
        = (build_camera st.next_alloc_id cs ps telescope,
            { st with
              camera_cache := (telescope.camera_name,
                build_camera st.next_alloc_id cs ps telescope) :: st.camera_cache
              next_alloc_id := st.next_alloc_id + 1 }) := by
      unfold resolve_cached_camera
      rw [hl]
    rw [hres]
    refine ⟨rfl, ?_, ?_, ?_, ?_, ?_, ?_, ?_, rfl, rfl⟩
    · show (if telescope.camera_name = telescope.camera_name then _ else _) = _
      rw [if_pos rfl]
    · intro name cam hn
      have hne : ¬ telescope.camera_name = name := by
        intro he
        rw [he] at hl
        rw [hl] at hn
        cases hn
      show (if telescope.camera_name = name then _ else lookup_camera st.camera_cache name)
        = some cam
      rw [if_neg hne]
      exact hn
    · intro entry hmem
      rcases List.mem_cons.mp hmem with rfl | hmem'
      · rfl
      · exact hwf.key_names entry hmem'
    · refine List.nodup_cons.mpr ⟨?_, hwf.keys_nodup⟩
      exact lookup_camera_none_not_mem st.camera_cache telescope.camera_name hl
    · intro entry hmem
      rcases List.mem_cons.mp hmem with rfl | hmem'
      · exact Nat.lt_succ_self _
      · exact Nat.lt_succ_of_lt (hwf.alloc_lt entry hmem')
    · refine List.nodup_cons.mpr ⟨?_, hwf.alloc_nodup⟩
      intro hin
      rcases List.mem_map.mp hin with ⟨entry, hmem, hid⟩
      have hlt := hwf.alloc_lt entry hmem
      rw [hid] at hlt
      exact absurd hlt (by simp [build_camera])
    · show st.next_alloc_id + 1 = st.camera_cache.length + 1
      rw [hwf.alloc_count]
  · have hres : resolve_cached_camera st cs ps telescope = (cam0, st) := by
      unfold resolve_cached_camera
      rw [hl]
    rw [hres]
    have hmem := lookup_camera_mem st.camera_cache telescope.camera_name cam0 hl
    exact ⟨hwf.key_names _ hmem, hl, fun name cam hn => hn, hwf.key_names,
      hwf.keys_nodup, hwf.alloc_lt, hwf.alloc_nodup, hwf.alloc_count, rfl, rfl⟩

/-- One successful builder step preserves cache well-formedness. -/
theorem subarray_build_step_wf (choice : FocalLengthChoice)
    (guess_telescope : ℕ → ℚ → Option TelescopeGuess) (header : SimTelHeader)
    (st : SubarrayBuildState) (entry : ℕ × TelescopeRaw) (st1 : SubarrayBuildState)
    (hwf : CameraCacheWF st)
    (h : subarray_build_step choice guess_telescope header st entry = Except.ok st1) :
    CameraCacheWF st1 := by
  unfold subarray_build_step at h
  rcases hf : resolve_focal_length choice entry.2.camera_settings with e | focal_length <;>
    rw [hf] at h
  · cases h
  rcases hp : resolve_tel_position header entry.1 with e | pos <;> rw [hp] at h
  · cases h
  cases h
  have hs := resolve_cached_camera_spec st entry.2.camera_settings entry.2.pixel_settings
    ((guess_telescope entry.2.camera_settings.n_pixels focal_length).getD UNKNOWN_TELESCOPE)
    hwf
  unfold subarray_append_telescope
  constructor
  · exact hs.2.2.2.1
  · exact hs.2.2.2.2.1
  · exact hs.2.2.2.2.2.1
  · exact hs.2.2.2.2.2.2.1
  · exact hs.2.2.2.2.2.2.2.1
  · intro td hmem
    rcases List.mem_append.mp hmem with hold | hnew
    · rw [hs.2.2.2.2.2.2.2.2.1] at hold
      exact hs.2.2.1 _ _ (hwf.descs_lookup td hold)
    · rcases List.mem_singleton.mp hnew with rfl
      show lookup_camera _
        (resolve_cached_camera st entry.2.camera_settings entry.2.pixel_settings _).1.camera_name
        = _
      rw [hs.1]
      exact hs.2.1

/-- The builder loop preserves cache well-formedness. -/
theorem subarray_build_loop_wf (choice : FocalLengthChoice)
    (guess_telescope : ℕ → ℚ → Option TelescopeGuess) (header : SimTelHeader) :
    ∀ (descs : List (ℕ × TelescopeRaw)) (st st1 : SubarrayBuildState),
      CameraCacheWF st →
      subarray_build_loop choice guess_telescope header st descs = Except.ok st1 →
      CameraCacheWF st1 := by
  intro descs
  induction descs with
  | nil =>
    intro st st1 hwf h
    cases h
    exact hwf
  | cons d rest ih =>
    intro st st1 hwf h
    simp only [subarray_build_loop] at h
    rcases hd : subarray_build_step choice guess_telescope header st d with e | st2 <;>
      rw [hd] at h
    · cases h
    · exact ih st2 st1 (subarray_build_step_wf choice guess_telescope header st d st2 hwf hd) h

/-- The empty builder state is well-formed. -/
theorem initial_build_state_wf : CameraCacheWF initial_build_state := by
  constructor <;> simp [initial_build_state, lookup_camera]

/-- A description list containing a telescope without the effective focal
length field makes the builder loop fail, whatever the state. -/
theorem subarray_build_loop_error_of_missing
    (guess_telescope : ℕ → ℚ → Option TelescopeGuess) (header : SimTelHeader) :
    ∀ (descs : List (ℕ × TelescopeRaw)) (st : SubarrayBuildState),
      (∃ entry ∈ descs, entry.2.camera_settings.effective_focal_length = none) →
      ∃ e, subarray_build_loop FocalLengthChoice.effective guess_telescope header st descs
        = Except.error e := by
  intro descs
  induction descs with
  | nil =>
    intro st h
    simp at h
  | cons d rest ih =>
    intro st h
    rcases h with ⟨entry, hmem, hnone⟩
    rcases List.mem_cons.mp hmem with rfl | hmem'
    · refine ⟨SimTelError.effective_focal_length_missing, ?_⟩
      simp [subarray_build_loop, subarray_build_step, resolve_focal_length, hnone]
    · rcases hd : subarray_build_step FocalLengthChoice.effective guess_telescope header st d
        with e | st2
      · exact ⟨e, by simp only [subarray_build_loop, hd]⟩
      · obtain ⟨e, he⟩ := ih st2 ⟨entry, hmem', hnone⟩
        exact ⟨e, by simp only [subarray_build_loop, hd, he]⟩

/-! ## Claim theorems about construction -/

/-- C5: with `focal_length_choice = effective`, a raw telescope description
lacking the effective-focal-length field makes its builder step fail with the
configuration error of lines 228–232, makes the whole `prepare_subarray_info`
fail, and makes `__init__` fail — construction never succeeds, so the failure
is fatal at model construction, before any event could be iterated. -/
theorem effective_focal_length_missing_fatal
    (guess_telescope : ℕ → ℚ → Option TelescopeGuess) (header : SimTelHeader)
    (descs : List (ℕ × TelescopeRaw))
    (h : ∃ entry ∈ descs, entry.2.camera_settings.effective_focal_length = none) :
    (∀ (st : SubarrayBuildState) (entry : ℕ × TelescopeRaw),
      entry.2.camera_settings.effective_focal_length = none →
      subarray_build_step FocalLengthChoice.effective guess_telescope header st entry
        = Except.error SimTelError.effective_focal_length_missing)
    ∧ (∃ e, prepare_subarray_info FocalLengthChoice.effective guess_telescope descs header
        = Except.error e)
    ∧ (∀ (back_seekable : Bool) (allowed_tels : Finset ℕ) (file_ : SimTelFileHandle),
        file_.telescope_descriptions = descs → file_.header = header →
        ∀ src, simtel_event_source_init back_seekable FocalLengthChoice.effective
            allowed_tels guess_telescope file_ ≠ Except.ok src) := by
  obtain ⟨e, he⟩ := subarray_build_loop_error_of_missing guess_telescope header descs
    initial_build_state h
  refine ⟨?_, ⟨e, ?_⟩, ?_⟩
  · intro st entry hnone
    simp [subarray_build_step, resolve_focal_length, hnone]
  · simp only [prepare_subarray_info, he]
  · intro back_seekable allowed_tels file_ hdesc hhdr src hok
    unfold simtel_event_source_init at hok
    split at hok
    · cases hok
    · rw [hdesc, hhdr] at hok
      simp [prepare_subarray_info, he] at hok

/-- Witness for `effective_focal_length_missing_fatal`: requesting the
effective focal length over a one-telescope table lacking the field makes
`prepare_subarray_info` fail. -/
theorem effective_focal_length_missing_fatal_witness :
    (∃ entry ∈ [(1, witness_raw_no_effective)],
      entry.2.camera_settings.effective_focal_length = none)
    ∧ ∃ e, prepare_subarray_info FocalLengthChoice.effective (fun _ _ => none)
        [(1, witness_raw_no_effective)] { run := 1, tel_id := [1], tel_pos := [(0, 0, 0)] }
      = Except.error e := by
  have hx : ∃ entry ∈ [(1, witness_raw_no_effective)],
      entry.2.camera_settings.effective_focal_length = none :=
    ⟨(1, witness_raw_no_effective), List.mem_cons_self _ _, rfl⟩
  exact ⟨hx, (effective_focal_length_missing_fatal (fun _ _ => none)
    { run := 1, tel_id := [1], tel_pos := [(0, 0, 0)] } [(1, witness_raw_no_effective)]
    hx).2.1⟩

/-- C6: when backward seekability is required and the underlying handle is a
stream, `__init__` raises immediately — it returns exactly the unsupported
seek error, no source object is ever constructed (so no event can be pulled),
and stream-ness is a function of the handle kind alone, fixed at open time. -/
theorem back_seek_required_fail_fast (back_seekable : Bool)
    (choice : FocalLengthChoice) (allowed_tels : Finset ℕ)
    (guess_telescope : ℕ → ℚ → Option TelescopeGuess) (file_ : SimTelFileHandle)
    (hreq : back_seekable = true) (hstream : is_stream file_ = true) :
    simtel_event_source_init back_seekable choice allowed_tels guess_telescope file_
        = Except.error SimTelError.back_seek_not_possible
    ∧ (∀ src, simtel_event_source_init back_seekable choice allowed_tels guess_telescope
        file_ ≠ Except.ok src)
    ∧ (∀ other : SimTelFileHandle, other.handle_kind = file_.handle_kind →
        is_stream other = true) := by
  have hcond : (back_seekable && is_stream file_) = true := by rw [hreq, hstream]; rfl
  have hmain : simtel_event_source_init back_seekable choice allowed_tels guess_telescope
      file_ = Except.error SimTelError.back_seek_not_possible := by
    unfold simtel_event_source_init
    rw [if_pos hcond]
  refine ⟨hmain, ?_, ?_⟩
  · intro src hok
    rw [hmain] at hok
    cases hok
  · intro other hkind
    unfold is_stream at hstream ⊢
    rw [hkind]
    exact hstream

/-- Witness for `back_seek_required_fail_fast`: requiring back-seekability on
the non-seekable handle fails at construction with the unsupported-seek
error. -/
theorem back_seek_required_fail_fast_witness :
    simtel_event_source_init true FocalLengthChoice.nominal ∅ (fun _ _ => none)
      witness_stream_file = Except.error SimTelError.back_seek_not_possible :=
  (back_seek_required_fail_fast true FocalLengthChoice.nominal ∅ (fun _ _ => none)
    witness_stream_file rfl rfl).1

/-- C8: in a successfully constructed subarray, any two telescope entries
whose cameras carry the same camera type name reference the very same camera
value — including its identity tag, i.e. the identical object.  Every
telescope's camera is the cache entry under its name, the cache holds at most
one entry per name with pairwise distinct identity tags, and the allocation
counter equals the number of cache entries: each camera was built exactly
once, on the first miss of its name. -/
theorem camera_cache_structural_sharing (choice : FocalLengthChoice)
    (guess_telescope : ℕ → ℚ → Option TelescopeGuess) (header : SimTelHeader)
    (descs : List (ℕ × TelescopeRaw)) (sub : SubarrayDescription)
    (st : SubarrayBuildState)
    (h : prepare_subarray_info choice guess_telescope descs header
      = Except.ok (sub, st)) :
    (∀ p ∈ sub.tel_descriptions, ∀ q ∈ sub.tel_descriptions,
      p.2.camera.camera_name = q.2.camera.camera_name → p.2.camera = q.2.camera)
    ∧ (∀ p ∈ sub.tel_descriptions,
        lookup_camera st.camera_cache p.2.camera.camera_name = some p.2.camera)
    ∧ (st.camera_cache.map Prod.fst).Nodup
    ∧ (st.camera_cache.map (fun entry => entry.2.alloc_id)).Nodup
    ∧ st.next_alloc_id = st.camera_cache.length := by
  unfold prepare_subarray_info at h
  rcases hrun : subarray_build_loop choice guess_telescope header initial_build_state descs
    with e | stf <;> rw [hrun] at h
  · cases h
  have hpair := Except.ok.inj h
  have hsub : sub
      = { name := "MonteCarloArray"
          tel_positions := stf.tel_positions
          tel_descriptions := stf.tel_descriptions } := (congrArg Prod.fst hpair).symm
  have hst : st = stf := (congrArg Prod.snd hpair).symm
  subst hsub
  subst hst
  have hwf := subarray_build_loop_wf choice guess_telescope header descs
    initial_build_state st initial_build_state_wf hrun
  have hdescs : ∀ p ∈ st.tel_descriptions,
      lookup_camera st.camera_cache p.2.camera.camera_name = some p.2.camera :=
    hwf.descs_lookup
  refine ⟨?_, hdescs, hwf.keys_nodup, hwf.alloc_nodup, hwf.alloc_count⟩
  intro p hp q hq hname
  have h1 := hdescs p hp
  have h2 := hdescs q hq
  rw [hname] at h1
  rw [h2] at h1
  exact (Option.some.inj h1).symm

/-- Witness for `camera_cache_structural_sharing`: building two telescopes
that share the camera type name LSTCam constructs the camera once (one cache
entry, allocation counter 1) and both telescope entries reference it. -/
theorem camera_cache_structural_sharing_witness :
    prepare_subarray_info FocalLengthChoice.nominal witness_guess
        [(1, witness_raw_shared), (2, witness_raw_shared)] witness_header
      = Except.ok (witness_subarray, witness_final_state)
    ∧ (1, witness_tel_description) ∈ witness_subarray.tel_descriptions
    ∧ (2, witness_tel_description) ∈ witness_subarray.tel_descriptions
    ∧ lookup_camera witness_final_state.camera_cache
        witness_tel_description.camera.camera_name = some witness_tel_description.camera
    ∧ witness_final_state.next_alloc_id = witness_final_state.camera_cache.length := by
  have hpre : prepare_subarray_info FocalLengthChoice.nominal witness_guess
      [(1, witness_raw_shared), (2, witness_raw_shared)] witness_header
    = Except.ok (witness_subarray, witness_final_state) := by rfl
  have h := camera_cache_structural_sharing FocalLengthChoice.nominal witness_guess
    witness_header [(1, witness_raw_shared), (2, witness_raw_shared)]
    witness_subarray witness_final_state hpre
  refine ⟨hpre, ?_, ?_, ?_, ?_⟩
  · exact List.mem_cons_self _ _
  · exact List.mem_cons_of_mem _ (List.mem_cons_self _ _)
  · exact h.2.1 (1, witness_tel_description) (List.mem_cons_self _ _)
  · exact h.2.2.2.2

end SimTel
